import Mathlib

/-!
Verification development for the WeatherStationDataBridge sync core.

Shallow embedding of the Python modules `transformer.py`, `retry.py` and
`orchestrator.py`. Numeric measurement values are modelled as exact
rationals, timestamps as integers, and the module-level mutable caches
(the precipitation cache and the dedup cache) as explicit association
lists threaded through the functions. External collaborators (the
Weather Underground fetch and the Windy send) are inputs: a fetch result
is an `Except`, a send operation is a function from the attempt number
to an `Except` outcome. Python exceptions are modelled as `Except`
error values carrying the exception message.

Note on the transform: `transformer.py` reads
`observation.wind_speed_kmh` and `observation.wind_gust_kmh`, but the
`WeatherObservation` model in `models.py` declares `wind_speed_mps` and
`wind_gust_mps` instead, and the fetch client constructs observations
with those declared names. Access to an undeclared field on a pydantic
model raises `AttributeError`, and the `has_data` list at the top of
`transform_to_windy_format` evaluates `observation.wind_speed_kmh`
eagerly, so on every real observation the transform fails with
`AttributeError` at its first statement. The embedding models
`WeatherObservation` exactly as `models.py` declares it, and the
transform accordingly: the rest of the function body is dead code on
this model.
-/

namespace WSDB

/-- Timestamps (Python `datetime`) are modelled as integers; only
equality and storage matter to the verified core. -/
abbrev Timestamp := Int

/-- Lookup in an association list, modelling Python `dict.get`. -/
def dictGet {α : Type} : List (String × α) → String → Option α
  | [], _ => none
  | (k₂, v) :: rest, k => if k₂ = k then some v else dictGet rest k

/-- Update of an association list, modelling Python `dict[k] = v`:
the new binding shadows any earlier one for `dictGet`. -/
def dictSet {α : Type} (m : List (String × α)) (k : String) (v : α) :
    List (String × α) :=
  (k, v) :: m

theorem dictGet_set_same {α : Type} (m : List (String × α)) (k : String) (v : α) :
    dictGet (dictSet m k v) k = some v := by
  simp [dictGet, dictSet]

theorem dictGet_set_other {α : Type} (m : List (String × α)) (k k₂ : String)
    (v : α) (h : k₂ ≠ k) : dictGet (dictSet m k v) k₂ = dictGet m k₂ := by
  simp only [dictGet, dictSet]
  rw [if_neg (fun hk => h hk.symm)]

/-- One entry of the precipitation cache: the `(timestamp, precip_mm,
precip_in)` triple stored per station in `transformer.py`. -/
structure PrecipEntry where
  timestamp : Timestamp
  precip_mm : Option ℚ
  precip_in : Option ℚ
deriving DecidableEq

/-- The module-level `_precipitation_cache` dict of `transformer.py`. -/
abbrev PrecipCache := List (String × PrecipEntry)

/-- Inches half of `calculate_hourly_precipitation` (lines 72-81 of
`transformer.py`): reached only when the mm branch did not early-return;
a decrease discards the already computed mm delta as well. -/
def precipInchesStep (hourly_mm : Option ℚ) (current_in prev_in : Option ℚ) :
    Option ℚ × Option ℚ :=
  match current_in, prev_in with
  | some c, some p => if c ≥ p then (hourly_mm, some (c - p)) else (none, none)
  | _, _ => (hourly_mm, none)

/-- Embedding of `calculate_hourly_precipitation` from `transformer.py`.
Returns the `(hourly_mm, hourly_in)` pair together with the updated
precipitation cache (the Python function mutates the module-level dict
before inspecting the previous entry). -/
def calculate_hourly_precipitation (cache : PrecipCache) (station_id : String)
    (current_timestamp : Timestamp)
    (current_precip_mm current_precip_in : Option ℚ) :
    (Option ℚ × Option ℚ) × PrecipCache :=
  let previous := dictGet cache station_id
  let cache₂ := dictSet cache station_id
    ⟨current_timestamp, current_precip_mm, current_precip_in⟩
  match previous with
  | none => ((none, none), cache₂)
  | some prev =>
    match current_precip_mm, prev.precip_mm with
    | some c, some p =>
      if c ≥ p then
        (precipInchesStep (some (c - p)) current_precip_in prev.precip_in, cache₂)
      else
        ((none, none), cache₂)
    | _, _ => (precipInchesStep none current_precip_in prev.precip_in, cache₂)

/-- Embedding of `clear_precipitation_cache` from `transformer.py`. -/
def clear_precipitation_cache : PrecipCache := []

/-- Embedding of the `WeatherObservation` model with exactly the fields
`models.py` declares: in particular the metric wind fields are named
`wind_speed_mps` / `wind_gust_mps` (they hold the raw metric API values,
which are in km/h), and no `wind_speed_kmh` / `wind_gust_kmh` fields
exist. -/
structure WeatherObservation where
  station_id : String
  timestamp : Timestamp
  temperature_c : Option ℚ
  temperature_f : Option ℚ
  wind_speed_mps : Option ℚ
  wind_speed_mph : Option ℚ
  wind_direction_deg : Option ℤ
  wind_gust_mps : Option ℚ
  wind_gust_mph : Option ℚ
  humidity_percent : Option ℚ
  dewpoint_c : Option ℚ
  dewpoint_f : Option ℚ
  pressure_pa : Option ℚ
  pressure_mbar : Option ℚ
  pressure_inhg : Option ℚ
  precipitation_mm : Option ℚ
  precipitation_in : Option ℚ
  uv_index : Option ℚ
deriving DecidableEq

/-- Embedding of the `WindyObservation` model (the target wire format).
The timestamp keeps the `Timestamp` type: the Python code formats it to
an ISO 8601 string, a rendering no claim depends on. -/
structure WindyObservation where
  station_index : ℤ
  timestamp : Timestamp
  temp : Option ℚ
  tempf : Option ℚ
  wind : Option ℚ
  windspeedmph : Option ℚ
  winddir : Option ℤ
  gust : Option ℚ
  windgustmph : Option ℚ
  rh : Option ℚ
  dewpoint : Option ℚ
  pressure : Option ℚ
  mbar : Option ℚ
  baromin : Option ℚ
  precip : Option ℚ
  rainin : Option ℚ
  uv : Option ℤ
deriving DecidableEq

/-- Message of the `AttributeError` raised when `transformer.py` reads
`observation.wind_speed_kmh`: the `WeatherObservation` model of
`models.py` declares `wind_speed_mps` instead, so the attribute does not
exist on any model instance. -/
def attributeErrorMsg : String :=
  "'WeatherObservation' object has no attribute 'wind_speed_kmh'"

/-- Embedding of `transform_to_windy_format` from `transformer.py` as it
behaves on the `WeatherObservation` model `models.py` declares. The
first statement of the function builds the `has_data` list, whose second
element reads `observation.wind_speed_kmh`; the model declares no such
field, so the access raises `AttributeError` on every instance, before
the validation, the unit conversions, the UV truncation and the
precipitation call are reached. The remainder of the function body
(the `ValueError` on missing measurements, the division of
`wind_speed_kmh` / `wind_gust_kmh` by 3.6, the `WindyObservation`
construction) is dead code on this model and therefore unreachable in
the embedding as well; the precipitation cache is left untouched. -/
def transform_to_windy_format (cache : PrecipCache)
    (observation : WeatherObservation) (station_index : ℤ) :
    Except String WindyObservation × PrecipCache :=
  (.error attributeErrorMsg, cache)

/-- Python `str` on an optional exception message; `str(None)` is the
string `"None"`. -/
def pyStr : Option String → String
  | none => "None"
  | some s => s

/-- The `MaxRetriesExceeded` exception of `models.py` as raised by
`retry.py`: its message, plus the wrapped last underlying error
(`raise ... from last_exception`). -/
structure MaxRetriesExceeded where
  message : String
  cause : Option String
deriving DecidableEq

/-- Observable trace of one `retry_with_backoff` call: how many times
the operation was invoked, the backoff sleeps performed between
attempts, and the final outcome. -/
structure RetryTrace (α : Type) where
  attemptsMade : ℕ
  waits : List ℚ
  result : Except MaxRetriesExceeded α

/-- Loop body of `retry_with_backoff` (lines 37-56 of `retry.py`),
by recursion on the number of remaining iterations of
`for attempt in range(1, max_attempts + 1)`. `attempt` is the 1-indexed
attempt number; falling out of the loop raises `MaxRetriesExceeded`
carrying the last exception (`none` when the loop body never ran). -/
def retryAux {α : Type} (operation : ℕ → Except String α) (max_attempts : ℤ)
    (delay_seconds : ℚ) (operation_name : String) :
    ℕ → Option String → ℕ → RetryTrace α
  | _, last_exception, 0 =>
    ⟨0, [], .error
      ⟨operation_name ++ " failed after " ++ toString max_attempts ++
        " attempts: " ++ pyStr last_exception, last_exception⟩⟩
  | attempt, _, remaining + 1 =>
    match operation attempt with
    | .ok v => ⟨1, [], .ok v⟩
    | .error e =>
      let wait_time := delay_seconds * 2 ^ (attempt - 1)
      let rest := retryAux operation max_attempts delay_seconds operation_name
        (attempt + 1) (some e) remaining
      ⟨rest.attemptsMade + 1,
       (if 0 < remaining then wait_time :: rest.waits else rest.waits),
       rest.result⟩

/-- Embedding of `retry_with_backoff` from `retry.py`. The zero-argument
fallible Python callable (side-effecting across attempts) is modelled as
a function from the 1-indexed attempt number to the outcome of that attempt;
`max_attempts` is a Python `int`, so it is an integer here. -/
def retry_with_backoff {α : Type} (operation : ℕ → Except String α)
    (max_attempts : ℤ) (delay_seconds : ℚ) (operation_name : String) :
    RetryTrace α :=
  retryAux operation max_attempts delay_seconds operation_name 1 none
    max_attempts.toNat

/-- Embedding of the `Configuration` model (the fields the sync core
consumes). -/
structure Configuration where
  windy_api_key : String
  wu_api_key : String
  wu_station_ids : List String
  windy_station_ids : List String
  sync_interval_minutes : ℤ
  log_level : String
  retry_attempts : ℤ
  retry_delay_seconds : ℚ

/-- Embedding of the `SyncResult` model. -/
structure SyncResult where
  station_id : String
  success : Bool
  timestamp : Timestamp
  error_message : Option String
  observations_sent : ℕ
deriving DecidableEq

/-- The mutable module-level state of the sync core: the
`_last_sent_timestamps` dedup dict of `orchestrator.py` and the
`_precipitation_cache` dict of `transformer.py`. -/
structure SyncState where
  last_sent : List (String × Timestamp)
  precip : PrecipCache
deriving DecidableEq

/-- Observable outcome of one `sync_station` call: the returned
`SyncResult`, the state after the call, and how many times the outbound
send operation was invoked. -/
structure SyncOutcome where
  result : SyncResult
  state : SyncState
  send_attempts : ℕ
deriving DecidableEq

/-- Operation name string built by `sync_station` for the retry call. -/
def sendOpName (station_id windy_station_id : String) : String :=
  "send_to_windy[" ++ station_id ++ "→" ++ windy_station_id ++ "]"

/-- Embedding of `sync_station` from `orchestrator.py`. The external
world is passed in: `start_time` models `datetime.now()`, `fetched` the
outcome of the Weather Underground fetch, `sendOp` the per-attempt
outcome of `send_to_windy`. The surrounding `try`/`except` of the
Python function appears as the failure branches, each producing a failed
`SyncResult` carrying the exception message. -/
def sync_station (station_id windy_station_id : String)
    (config : Configuration) (start_time : Timestamp)
    (fetched : Except String WeatherObservation)
    (sendOp : ℕ → Except String Bool) (st : SyncState) : SyncOutcome :=
  match fetched with
  | .error e => ⟨⟨station_id, false, start_time, some e, 0⟩, st, 0⟩
  | .ok observation =>
    if dictGet st.last_sent station_id = some observation.timestamp then
      ⟨⟨station_id, true, start_time, none, 0⟩, st, 0⟩
    else
      let last₂ := dictSet st.last_sent station_id observation.timestamp
      match transform_to_windy_format st.precip observation 0 with
      | (.error e, precip₂) =>
        ⟨⟨station_id, false, start_time, some e, 0⟩, ⟨last₂, precip₂⟩, 0⟩
      | (.ok _, precip₂) =>
        let trace := retry_with_backoff sendOp config.retry_attempts
          config.retry_delay_seconds (sendOpName station_id windy_station_id)
        match trace.result with
        | .ok _ =>
          ⟨⟨station_id, true, start_time, none, 1⟩, ⟨last₂, precip₂⟩,
            trace.attemptsMade⟩
        | .error m =>
          ⟨⟨station_id, false, start_time, some m.message, 0⟩,
            ⟨last₂, precip₂⟩, trace.attemptsMade⟩

/-- Per-station external inputs for one sync cycle, keyed by the source
station id. -/
structure StationEnv where
  start_time : Timestamp
  fetched : Except String WeatherObservation
  sendOp : ℕ → Except String Bool

/-- The fan-out of `execute_sync_cycle` over the zipped station pairs.
`asyncio.gather` returns results in task-creation order, and the shared
caches are partitioned by station id, so the cycle is modelled as the
in-order composition of the per-station syncs. -/
def runStationPairs (config : Configuration) (env : String → StationEnv) :
    List (String × String) → SyncState → List SyncResult × SyncState
  | [], st => ([], st)
  | (wu_id, windy_id) :: rest, st =>
    let o := sync_station wu_id windy_id config (env wu_id).start_time
      (env wu_id).fetched (env wu_id).sendOp st
    let rest₂ := runStationPairs config env rest o.state
    (o.result :: rest₂.1, rest₂.2)

/-- Embedding of `execute_sync_cycle` from `orchestrator.py`: one result
per configured station pair, in input order. -/
def execute_sync_cycle (config : Configuration) (env : String → StationEnv)
    (st : SyncState) : List SyncResult × SyncState :=
  runStationPairs config env
    (config.wu_station_ids.zip config.windy_station_ids) st

/-- Runs `calculate_hourly_precipitation` over a sequence of readings
for one station, collecting the hourly mm results. -/
def precipRunMm (station_id : String) :
    List (Timestamp × Option ℚ × Option ℚ) → PrecipCache → List (Option ℚ)
  | [], _ => []
  | (ts, mm, inn) :: rest, cache =>
    let r := calculate_hourly_precipitation cache station_id ts mm inn
    r.1.1 :: precipRunMm station_id rest r.2

/-- Helper: every branch of `calculate_hourly_precipitation` overwrites
the cache entry for the station with the current reading. -/
theorem precip_cache_eq (cache : PrecipCache) (sid : String) (ts : Timestamp)
    (cmm cin : Option ℚ) :
    (calculate_hourly_precipitation cache sid ts cmm cin).2 =
      dictSet cache sid ⟨ts, cmm, cin⟩ := by
  unfold calculate_hourly_precipitation
  cases dictGet cache sid with
  | none => rfl
  | some prev =>
    rcases prev with ⟨pts, pmm, pin⟩
    rcases cmm with _ | c <;> rcases pmm with _ | p <;> dsimp only <;>
      first
      | rfl
      | (split <;> rfl)

/-- C1: a precipitation-delta update with no prior entry returns
`(none, none)`; with a prior entry, a strict decrease in either unit
(both values present for that unit) returns `(none, none)` for both
units; and in every branch the stored entry for the station becomes the
current `(timestamp, mm, inches)` reading. -/
theorem precip_update_reset_and_baseline (cache : PrecipCache) (sid : String)
    (ts : Timestamp) (cmm cin : Option ℚ) :
    (dictGet cache sid = none →
      (calculate_hourly_precipitation cache sid ts cmm cin).1 = (none, none))
    ∧ (∀ prev, dictGet cache sid = some prev →
        ((∃ c p, cmm = some c ∧ prev.precip_mm = some p ∧ c < p) ∨
         (∃ c p, cin = some c ∧ prev.precip_in = some p ∧ c < p)) →
        (calculate_hourly_precipitation cache sid ts cmm cin).1 = (none, none))
    ∧ dictGet (calculate_hourly_precipitation cache sid ts cmm cin).2 sid =
        some ⟨ts, cmm, cin⟩ := by
  refine ⟨?_, ?_, ?_⟩
  · intro h
    simp [calculate_hourly_precipitation, h]
  · intro prev hprev hdec
    rcases hdec with ⟨c, p, hc, hp, hlt⟩ | ⟨c, p, hc, hp, hlt⟩
    · subst hc
      simp [calculate_hourly_precipitation, hprev, hp, hlt.not_le]
    · subst hc
      rcases hcm : cmm with _ | c₂ <;> rcases hpm : prev.precip_mm with _ | p₂ <;>
        simp [calculate_hourly_precipitation, hprev, hp, hpm, precipInchesStep,
          hlt.not_le]
  · rw [precip_cache_eq]
    exact dictGet_set_same _ _ _

/-- Witness for C1 at a concrete input: prior entry `(0, 5mm, 1in)`,
current reading `(1, 2mm, 1in)` is an mm decrease, so both deltas are
`none` and the stored entry becomes the current reading. -/
theorem precip_update_reset_and_baseline_witness :
    (calculate_hourly_precipitation [("S", ⟨0, some 5, some 1⟩)] "S" 1
        (some 2) (some 1)).1 = (none, none)
    ∧ dictGet (calculate_hourly_precipitation [("S", ⟨0, some 5, some 1⟩)] "S" 1
        (some 2) (some 1)).2 "S" = some ⟨1, some 2, some 1⟩ :=
  ⟨(precip_update_reset_and_baseline [("S", ⟨0, some 5, some 1⟩)] "S" 1
      (some 2) (some 1)).2.1 ⟨0, some 5, some 1⟩ (by decide)
      (Or.inl ⟨2, 5, rfl, rfl, by norm_num⟩),
   (precip_update_reset_and_baseline [("S", ⟨0, some 5, some 1⟩)] "S" 1
      (some 2) (some 1)).2.2⟩

/-- Spec-side formula for a per-unit delta: `current - previous` when
both are present, `none` otherwise. Used to compare the code with the
wording of the claim. -/
def specDelta : Option ℚ → Option ℚ → Option ℚ
  | some c, some p => some (c - p)
  | _, _ => none

/-- Counterexample to C2 as stated: with a prior entry whose mm value is
5 and inches value 0.3, a current reading of 7 mm and 0.1 in has both mm
values present with current ≥ previous, yet the mm result is not
`current - previous`: the inches decrease makes the call return
`(none, none)` for both units. -/
theorem precip_unit_independence_cex :
    dictGet [("STN", (⟨0, some 5, some (3/10)⟩ : PrecipEntry))] "STN" =
      some ⟨0, some 5, some (3/10)⟩
    ∧ (5 : ℚ) ≤ 7
    ∧ (calculate_hourly_precipitation [("STN", ⟨0, some 5, some (3/10)⟩)]
        "STN" 1 (some 7) (some (1/10))).1 = (none, none)
    ∧ (calculate_hourly_precipitation [("STN", ⟨0, some 5, some (3/10)⟩)]
        "STN" 1 (some 7) (some (1/10))).1.1 ≠ some (7 - 5) := by
  have h : (calculate_hourly_precipitation [("STN", ⟨0, some 5, some (3/10)⟩)]
      "STN" 1 (some 7) (some (1/10))).1 = (none, none) := by
    norm_num [calculate_hourly_precipitation, dictGet, dictSet, precipInchesStep]
  refine ⟨by simp [dictGet], by norm_num, h, ?_⟩
  rw [show (calculate_hourly_precipitation [("STN", ⟨0, some 5, some (3/10)⟩)]
      "STN" 1 (some 7) (some (1/10))).1.1 =
      ((calculate_hourly_precipitation [("STN", ⟨0, some 5, some (3/10)⟩)]
        "STN" 1 (some 7) (some (1/10))).1).1 from rfl, h]
  simp

/-- Helper: the inches half of the update under the no-reset hypothesis
computes the per-unit delta independently. -/
theorem precipInchesStep_no_reset (hm ci pi : Option ℚ)
    (h : ∀ c p, ci = some c → pi = some p → p ≤ c) :
    precipInchesStep hm ci pi = (hm, specDelta ci pi) := by
  rcases ci with _ | c <;> rcases pi with _ | p <;>
      simp only [precipInchesStep, specDelta]
  rw [if_pos (h c p rfl rfl)]

/-- C2 (amended): with a prior entry, provided neither unit detects a
reset (that is, for each unit with both values present the current value
is at least the previous one), each unit independently yields
`current - previous` when both values are present, and `none` when
either is absent; and the five-call cumulative-mm sequence
`2, 5, 15, 15, 1` yields hourly mm deltas
`none, 3, 10, 0, none`. -/
theorem precip_delta_per_unit (cache : PrecipCache) (sid : String)
    (ts : Timestamp) (cmm cin : Option ℚ) (prev : PrecipEntry)
    (hprev : dictGet cache sid = some prev)
    (hmm : ∀ c p, cmm = some c → prev.precip_mm = some p → p ≤ c)
    (hin : ∀ c p, cin = some c → prev.precip_in = some p → p ≤ c) :
    (calculate_hourly_precipitation cache sid ts cmm cin).1 =
      (specDelta cmm prev.precip_mm, specDelta cin prev.precip_in)
    ∧ precipRunMm "STN"
        [(0, some 2, some (2/25)), (1, some 5, some (1/5)),
         (2, some 15, some (59/100)), (3, some 15, some (59/100)),
         (4, some 1, some (1/25))] [] =
      [none, some 3, some 10, some 0, none] := by
  constructor
  · obtain ⟨pts, pmm, pin⟩ := prev
    simp only [calculate_hourly_precipitation, hprev]
    rcases cmm with _ | c <;> rcases pmm with _ | p <;> dsimp only <;>
      first
      | (rw [if_pos (hmm _ _ rfl rfl), precipInchesStep_no_reset _ _ _ hin]
         simp [specDelta])
      | (rw [precipInchesStep_no_reset _ _ _ hin]; simp [specDelta])
  · norm_num [precipRunMm, calculate_hourly_precipitation, dictGet, dictSet,
      precipInchesStep]

/-- Witness for C2 (amended) at a concrete input: prior entry
`(0, 5mm, 0.2in)`, current reading `(1, 8mm, 0.31in)`; no unit
decreases, and the deltas are `3mm` and `0.11in`. -/
theorem precip_delta_per_unit_witness :
    (calculate_hourly_precipitation [("S", ⟨0, some 5, some (1/5)⟩)] "S" 1
        (some 8) (some (31/100))).1 =
      (specDelta (some 8) (some 5), specDelta (some (31/100)) (some (1/5))) :=
  (precip_delta_per_unit [("S", ⟨0, some 5, some (1/5)⟩)] "S" 1
    (some 8) (some (31/100)) ⟨0, some 5, some (1/5)⟩ (by simp [dictGet])
    (by intro c p hc hp
        cases hc; cases hp; norm_num)
    (by intro c p hc hp
        cases hc; cases hp; norm_num)).1

/-- Observation as the fetch client builds it from a metric wind speed
of 18 km/h and a gust of 25 km/h: the values land in the declared
`wind_speed_mps` / `wind_gust_mps` fields. -/
def obsWind : WeatherObservation :=
  ⟨"S", 0, some 20, none, some 18, none, none, some 25, none, none, none,
   none, none, none, none, none, none, none⟩

/-- C3 (code bug): the transform never converts a wind speed. Its first
statement, the `has_data` check, reads the `wind_speed_kmh` attribute,
which the `WeatherObservation` model does not declare, so every call −
in particular one on an observation carrying a wind speed of 18 km/h −
fails with `AttributeError` before any division by 3.6 can happen, and
the precipitation cache is left unchanged. -/
theorem transform_wind_attribute_error :
    transform_to_windy_format [] obsWind 0 = (.error attributeErrorMsg, [])
    ∧ ∀ (cache : PrecipCache) (observation : WeatherObservation) (idx : ℤ),
        transform_to_windy_format cache observation idx =
          (.error attributeErrorMsg, cache) :=
  ⟨rfl, fun _ _ _ => rfl⟩

/-- Observation carrying only a UV index. -/
def obsUV : WeatherObservation :=
  ⟨"S", 0, none, none, none, none, none, none, none, none, none, none,
   none, none, none, none, none, some (57/10)⟩

/-- C4 (code bug): the transform neither raises the invalid-observation
`ValueError` nor returns a target observation for any input: the
`has_data` check itself raises `AttributeError` first, for the UV-only
observation just as for every other one. -/
theorem transform_never_validates :
    (transform_to_windy_format [] obsUV 0).1 = .error attributeErrorMsg
    ∧ ∀ (cache : PrecipCache) (observation : WeatherObservation) (idx : ℤ),
        (transform_to_windy_format cache observation idx).1 =
          .error attributeErrorMsg :=
  ⟨rfl, fun _ _ _ => rfl⟩

/-- Helper: the retry loop performs at most `remaining` attempts. -/
theorem retryAux_attempts_le {α : Type} (op : ℕ → Except String α) (ma : ℤ)
    (d : ℚ) (nm : String) :
    ∀ (remaining attempt : ℕ) (last : Option String),
      (retryAux op ma d nm attempt last remaining).attemptsMade ≤ remaining := by
  intro remaining
  induction remaining with
  | zero => intro attempt last; simp [retryAux]
  | succ r ih =>
    intro attempt last
    simp only [retryAux]
    cases hop : op attempt with
    | ok v => simp
    | error e =>
      dsimp only
      exact Nat.succ_le_succ (ih (attempt + 1) (some e))

/-- Helper: with at least one remaining iteration the loop invokes the
operation at least once. -/
theorem retryAux_attempts_pos {α : Type} (op : ℕ → Except String α) (ma : ℤ)
    (d : ℚ) (nm : String) (r attempt : ℕ) (last : Option String) :
    0 < (retryAux op ma d nm attempt last (r + 1)).attemptsMade := by
  simp only [retryAux]
  cases hop : op attempt with
  | ok v => simp
  | error e => exact Nat.succ_pos _

/-- Helper: the sleeps of the retry loop starting at attempt `a + 1` are
exactly `d * 2 ^ (a + i)` for `i` below the number of attempts made
minus one. -/
theorem retryAux_waits {α : Type} (op : ℕ → Except String α) (ma : ℤ)
    (d : ℚ) (nm : String) :
    ∀ (remaining a : ℕ) (last : Option String),
      (retryAux op ma d nm (a + 1) last remaining).waits =
        (List.range
            ((retryAux op ma d nm (a + 1) last remaining).attemptsMade - 1)).map
          (fun i => d * 2 ^ (a + i)) := by
  intro remaining
  induction remaining with
  | zero => intro a last; simp [retryAux]
  | succ r ih =>
    intro a last
    simp only [retryAux]
    cases hop : op (a + 1) with
    | ok v => simp
    | error e =>
      dsimp only
      rcases r with _ | r'
      · simp [retryAux]
      · rw [if_pos (Nat.succ_pos r')]
        obtain ⟨n, hn⟩ : ∃ n,
            (retryAux op ma d nm (a + 1 + 1) (some e) (r' + 1)).attemptsMade =
              n + 1 :=
          ⟨_, (Nat.succ_pred_eq_of_pos
            (retryAux_attempts_pos op ma d nm r' (a + 1 + 1) (some e))).symm⟩
        rw [ih (a + 1) (some e), hn]
        simp only [Nat.add_sub_cancel, List.range_succ_eq_map, List.map_cons,
          List.map_map]
        congr 1
        apply List.map_congr_left
        intro i _
        show d * 2 ^ (a + 1 + i) = d * 2 ^ (a + (i + 1))
        rw [show a + 1 + i = a + (i + 1) from by omega]

/-- Helper: if the first `i` attempts fail and attempt `i + 1` (counting
from `attempt`) succeeds, the loop stops there and returns that value. -/
theorem retryAux_first_success {α : Type} (op : ℕ → Except String α) (ma : ℤ)
    (d : ℚ) (nm : String) (v : α) :
    ∀ (i remaining attempt : ℕ) (last : Option String),
      i < remaining →
      (∀ j, j < i → ∃ e, op (attempt + j) = .error e) →
      op (attempt + i) = .ok v →
      (retryAux op ma d nm attempt last remaining).result = .ok v ∧
      (retryAux op ma d nm attempt last remaining).attemptsMade = i + 1 := by
  intro i
  induction i with
  | zero =>
    intro remaining attempt last hlt hfail hok
    obtain ⟨r, rfl⟩ : ∃ r, remaining = r + 1 := ⟨remaining - 1, by omega⟩
    rw [Nat.add_zero] at hok
    simp [retryAux, hok]
  | succ i ih =>
    intro remaining attempt last hlt hfail hok
    obtain ⟨r, rfl⟩ : ∃ r, remaining = r + 1 := ⟨remaining - 1, by omega⟩
    obtain ⟨e, he⟩ := hfail 0 (Nat.succ_pos i)
    rw [Nat.add_zero] at he
    simp only [retryAux, he]
    have hres := ih r (attempt + 1) (some e) (by omega)
      (fun j hj => by
        rw [show attempt + 1 + j = attempt + (j + 1) from by omega]
        exact hfail (j + 1) (by omega))
      (by rw [show attempt + 1 + i = attempt + (i + 1) from by omega]; exact hok)
    exact ⟨hres.1, by rw [hres.2]⟩

/-- Helper: if every attempt fails, the loop exhausts all iterations and
fails with the last underlying error as the cause. -/
theorem retryAux_all_fail {α : Type} (op : ℕ → Except String α) (ma : ℤ)
    (d : ℚ) (nm : String) :
    ∀ (r attempt : ℕ) (last : Option String),
      (∀ j, j < r + 1 → ∃ e, op (attempt + j) = .error e) →
      (retryAux op ma d nm attempt last (r + 1)).attemptsMade = r + 1 ∧
      ∀ e, op (attempt + r) = .error e →
        ∃ m, (retryAux op ma d nm attempt last (r + 1)).result = .error m ∧
          m.cause = some e := by
  intro r
  induction r with
  | zero =>
    intro attempt last hfail
    obtain ⟨e, he⟩ := hfail 0 (by omega)
    rw [Nat.add_zero] at he
    refine ⟨by simp [retryAux, he], ?_⟩
    intro e₂ he₂
    rw [Nat.add_zero, he] at he₂
    injection he₂ with he₃
    subst he₃
    refine ⟨⟨nm ++ " failed after " ++ toString ma ++ " attempts: " ++
      pyStr (some e), some e⟩, ?_, rfl⟩
    simp [retryAux, he]
  | succ r ih =>
    intro attempt last hfail
    obtain ⟨e, he⟩ := hfail 0 (by omega)
    rw [Nat.add_zero] at he
    simp only [retryAux, he]
    have hrec := ih (attempt + 1) (some e)
      (fun j hj => by
        rw [show attempt + 1 + j = attempt + (j + 1) from by omega]
        exact hfail (j + 1) (by omega))
    refine ⟨?_, ?_⟩
    · exact congrArg (· + 1) hrec.1
    · intro e₂ he₂
      exact hrec.2 e₂
        (by rw [show attempt + 1 + r = attempt + (r + 1) from by omega]
            exact he₂)

/-- C7: for a fallible operation and `max_attempts ≥ 1`, the retrier
performs at most `max_attempts` attempts; the sleeps between consecutive
attempts are `delay * 2 ^ (k - 1)` for the 1-indexed attempt `k` (so the
first wait equals the initial delay); a first success at attempt `k`
returns that result immediately after exactly `k` attempts; and if every
attempt fails it fails with `MaxRetriesExceeded` whose cause is the last
underlying error. -/
theorem retry_backoff_spec {α : Type} (op : ℕ → Except String α) (ma : ℤ)
    (d : ℚ) (nm : String) (hma : 1 ≤ ma) :
    (retry_with_backoff op ma d nm).attemptsMade ≤ ma.toNat
    ∧ (retry_with_backoff op ma d nm).waits =
        (List.range ((retry_with_backoff op ma d nm).attemptsMade - 1)).map
          (fun i => d * 2 ^ i)
    ∧ (∀ k v, 1 ≤ k → k ≤ ma.toNat →
        (∀ j, 1 ≤ j → j < k → ∃ e, op j = .error e) → op k = .ok v →
        (retry_with_backoff op ma d nm).result = .ok v ∧
        (retry_with_backoff op ma d nm).attemptsMade = k)
    ∧ ((∀ j, 1 ≤ j → j ≤ ma.toNat → ∃ e, op j = .error e) →
        (retry_with_backoff op ma d nm).attemptsMade = ma.toNat ∧
        ∀ e, op ma.toNat = .error e →
          ∃ m, (retry_with_backoff op ma d nm).result = .error m ∧
            m.cause = some e) := by
  simp only [retry_with_backoff]
  refine ⟨retryAux_attempts_le op ma d nm ma.toNat 1 none, ?_, ?_, ?_⟩
  · have h := retryAux_waits op ma d nm ma.toNat 0 none
    simpa using h
  · intro k v hk1 hk2 hfail hok
    have h := retryAux_first_success op ma d nm v (k - 1) ma.toNat 1 none
      (by omega)
      (fun j hj => hfail (1 + j) (by omega) (by omega))
      (by rw [show 1 + (k - 1) = k from by omega]; exact hok)
    exact ⟨h.1, by rw [h.2]; omega⟩
  · intro hfail
    obtain ⟨r, hr⟩ : ∃ r, ma.toNat = r + 1 := ⟨ma.toNat - 1, by omega⟩
    rw [hr]
    have h := retryAux_all_fail op ma d nm r 1 none
      (fun j hj => hfail (1 + j) (by omega) (by omega))
    refine ⟨h.1, ?_⟩
    intro e he
    exact h.2 e (by rwa [Nat.add_comm 1 r])

/-- Witness for C7: with `max_attempts = 3`, `delay = 5` and an
always-failing operation, the retrier performs exactly 3 attempts with
waits of 5 then 10 between them, and fails carrying the last error. -/
theorem retry_backoff_spec_witness :
    (retry_with_backoff (fun _ => (.error "boom" : Except String Bool))
        3 5 "op").attemptsMade = 3
    ∧ (retry_with_backoff (fun _ => (.error "boom" : Except String Bool))
        3 5 "op").waits = [5, 10]
    ∧ ∃ m, (retry_with_backoff (fun _ => (.error "boom" : Except String Bool))
        3 5 "op").result = .error m ∧ m.cause = some "boom" := by
  have h := retry_backoff_spec (fun _ => (.error "boom" : Except String Bool))
    3 5 "op" (by norm_num)
  have h4 := h.2.2.2 (fun j _ _ => ⟨"boom", rfl⟩)
  have ha : (retry_with_backoff (fun _ => (.error "boom" : Except String Bool))
      3 5 "op").attemptsMade = 3 := by
    have h5 := h4.1
    omega
  refine ⟨ha, ?_, h4.2 "boom" rfl⟩
  rw [h.2.1, ha]
  norm_num [List.range_succ]

/-- C10: with a non-positive `max_attempts` the retrier never invokes
the operation (the outcome does not depend on it and zero attempts are
made) and fails immediately with `MaxRetriesExceeded` whose wrapped
underlying error is `none`. -/
theorem retry_nonpositive_attempts {α : Type} (op : ℕ → Except String α)
    (ma : ℤ) (d : ℚ) (nm : String) (hma : ma ≤ 0) :
    retry_with_backoff op ma d nm =
      ⟨0, [], .error
        ⟨nm ++ " failed after " ++ toString ma ++ " attempts: " ++ "None",
          none⟩⟩ := by
  unfold retry_with_backoff
  rw [Int.toNat_of_nonpos hma]
  rfl

/-- Witness for C10 at `max_attempts = 0`. -/
theorem retry_nonpositive_attempts_witness :
    retry_with_backoff (fun _ => (.error "x" : Except String Bool))
        0 5 "operation" =
      ⟨0, [], .error
        ⟨"operation" ++ " failed after " ++ toString (0 : ℤ) ++
          " attempts: " ++ "None", none⟩⟩ :=
  retry_nonpositive_attempts _ 0 5 "operation" (by norm_num)

/-- Helper: a failed fetch short-circuits the station sync with a
failure result and leaves the state untouched. -/
theorem sync_station_fetch_error (sid wid : String) (config : Configuration)
    (t0 : Timestamp) (e : String) (sendOp : ℕ → Except String Bool)
    (st : SyncState) :
    sync_station sid wid config t0 (.error e) sendOp st =
      ⟨⟨sid, false, t0, some e, 0⟩, st, 0⟩ := rfl

/-- Helper: when the cached timestamp equals the fetched one, the sync
is skipped: a successful result with nothing sent and no state change. -/
theorem sync_station_skip (sid wid : String) (config : Configuration)
    (t0 : Timestamp) (observation : WeatherObservation)
    (sendOp : ℕ → Except String Bool) (st : SyncState)
    (h : dictGet st.last_sent sid = some observation.timestamp) :
    sync_station sid wid config t0 (.ok observation) sendOp st =
      ⟨⟨sid, true, t0, none, 0⟩, st, 0⟩ := by
  simp [sync_station, h]

/-- Helper: a non-skipped sync whose transform fails returns the
transform error; the dedup mark has already been written. -/
theorem sync_station_transform_error (sid wid : String)
    (config : Configuration) (t0 : Timestamp)
    (observation : WeatherObservation) (sendOp : ℕ → Except String Bool)
    (st : SyncState) (e : String) (pc : PrecipCache)
    (h : dictGet st.last_sent sid ≠ some observation.timestamp)
    (htr : transform_to_windy_format st.precip observation 0 = (.error e, pc)) :
    sync_station sid wid config t0 (.ok observation) sendOp st =
      ⟨⟨sid, false, t0, some e, 0⟩,
        ⟨dictSet st.last_sent sid observation.timestamp, pc⟩, 0⟩ := by
  simp only [sync_station, if_neg h]
  rw [htr]

/-- Helper: a non-skipped sync whose transform succeeds and whose send
succeeds within the retry budget returns a success with one observation
sent. -/
theorem sync_station_send_ok (sid wid : String) (config : Configuration)
    (t0 : Timestamp) (observation : WeatherObservation)
    (sendOp : ℕ → Except String Bool) (st : SyncState)
    (w : WindyObservation) (pc : PrecipCache) (b : Bool)
    (h : dictGet st.last_sent sid ≠ some observation.timestamp)
    (htr : transform_to_windy_format st.precip observation 0 = (.ok w, pc))
    (hsend : (retry_with_backoff sendOp config.retry_attempts
        config.retry_delay_seconds (sendOpName sid wid)).result = .ok b) :
    sync_station sid wid config t0 (.ok observation) sendOp st =
      ⟨⟨sid, true, t0, none, 1⟩,
        ⟨dictSet st.last_sent sid observation.timestamp, pc⟩,
        (retry_with_backoff sendOp config.retry_attempts
          config.retry_delay_seconds (sendOpName sid wid)).attemptsMade⟩ := by
  simp only [sync_station, if_neg h]
  rw [htr]
  dsimp only
  rw [hsend]

/-- Helper: a non-skipped sync whose transform succeeds but whose send
exhausts the retry budget returns a failure carrying the retry error
message. -/
theorem sync_station_send_error (sid wid : String) (config : Configuration)
    (t0 : Timestamp) (observation : WeatherObservation)
    (sendOp : ℕ → Except String Bool) (st : SyncState)
    (w : WindyObservation) (pc : PrecipCache) (m : MaxRetriesExceeded)
    (h : dictGet st.last_sent sid ≠ some observation.timestamp)
    (htr : transform_to_windy_format st.precip observation 0 = (.ok w, pc))
    (hsend : (retry_with_backoff sendOp config.retry_attempts
        config.retry_delay_seconds (sendOpName sid wid)).result = .error m) :
    sync_station sid wid config t0 (.ok observation) sendOp st =
      ⟨⟨sid, false, t0, some m.message, 0⟩,
        ⟨dictSet st.last_sent sid observation.timestamp, pc⟩,
        (retry_with_backoff sendOp config.retry_attempts
          config.retry_delay_seconds (sendOpName sid wid)).attemptsMade⟩ := by
  simp only [sync_station, if_neg h]
  rw [htr]
  dsimp only
  rw [hsend]

/-- Helper: every non-skipped sync writes the new timestamp into the
dedup cache, whatever the transform and send outcomes. -/
theorem sync_station_mark (sid wid : String) (config : Configuration)
    (t0 : Timestamp) (observation : WeatherObservation)
    (sendOp : ℕ → Except String Bool) (st : SyncState)
    (h : dictGet st.last_sent sid ≠ some observation.timestamp) :
    (sync_station sid wid config t0 (.ok observation) sendOp st).state.last_sent
      = dictSet st.last_sent sid observation.timestamp := by
  rcases htr : transform_to_windy_format st.precip observation 0 with ⟨tr, pc⟩
  rcases tr with e | w
  · rw [sync_station_transform_error sid wid config t0 observation sendOp st
      e pc h htr]
  · rcases hres : (retry_with_backoff sendOp config.retry_attempts
        config.retry_delay_seconds (sendOpName sid wid)).result with m | b
    · rw [sync_station_send_error sid wid config t0 observation sendOp st
        w pc m h htr hres]
    · rw [sync_station_send_ok sid wid config t0 observation sendOp st
        w pc b h htr hres]

/-- C5: given a fetched observation, the per-station sync is skipped
(successful result with nothing sent) exactly when the cached last-sent
timestamp for the station equals the observation timestamp; a skipped
sync leaves the whole state untouched (so the precipitation cache and
every other station entry are unaffected) and performs zero send
attempts. -/
theorem sync_dedup_skip_iff (sid wid : String) (config : Configuration)
    (t0 : Timestamp) (observation : WeatherObservation)
    (sendOp : ℕ → Except String Bool) (st : SyncState) :
    (((sync_station sid wid config t0 (.ok observation) sendOp st).result.success
        = true ∧
      (sync_station sid wid config t0
        (.ok observation) sendOp st).result.observations_sent = 0) ↔
      dictGet st.last_sent sid = some observation.timestamp)
    ∧ (dictGet st.last_sent sid = some observation.timestamp →
        sync_station sid wid config t0 (.ok observation) sendOp st =
          ⟨⟨sid, true, t0, none, 0⟩, st, 0⟩) := by
  by_cases h : dictGet st.last_sent sid = some observation.timestamp
  · rw [sync_station_skip sid wid config t0 observation sendOp st h]
    simp [h]
  · refine ⟨⟨?_, fun hskip => absurd hskip h⟩, fun hskip => absurd hskip h⟩
    rintro ⟨hs, hn⟩
    rcases htr : transform_to_windy_format st.precip observation 0 with ⟨tr, pc⟩
    rcases tr with e | w
    · rw [sync_station_transform_error sid wid config t0 observation sendOp st
        e pc h htr] at hs
      simp at hs
    · rcases hres : (retry_with_backoff sendOp config.retry_attempts
          config.retry_delay_seconds (sendOpName sid wid)).result with m | b
      · rw [sync_station_send_error sid wid config t0 observation sendOp st
          w pc m h htr hres] at hs
        simp at hs
      · rw [sync_station_send_ok sid wid config t0 observation sendOp st
          w pc b h htr hres] at hn
        simp at hn

/-- Concrete configuration used by the witnesses. -/
def cfgA : Configuration :=
  ⟨"windy-key", "wu-key", ["A", "B"], ["WA", "WB"], 5, "INFO", 3, 5⟩

/-- Observation with timestamp 7 used by the dedup witnesses. -/
def obsSkip : WeatherObservation :=
  ⟨"S", 7, some 20, none, none, none, none, none, none, none, none, none,
   none, none, none, none, none, none⟩

/-- Witness for C5: with the cache already holding timestamp 7 for the
station, the sync is skipped and nothing changes. -/
theorem sync_dedup_skip_iff_witness :
    sync_station "S" "W" cfgA 0 (.ok obsSkip) (fun _ => .ok true)
        ⟨[("S", 7)], []⟩ =
      ⟨⟨"S", true, 0, none, 0⟩, ⟨[("S", 7)], []⟩, 0⟩ :=
  (sync_dedup_skip_iff "S" "W" cfgA 0 obsSkip (fun _ => .ok true)
    ⟨[("S", 7)], []⟩).2 (by simp [dictGet, obsSkip])

/-- C6: a non-skipped sync updates the dedup entry for the station to
the new observation timestamp whatever the transform and send outcomes,
leaves every other station entry unchanged, and a subsequent sync of the
same station observing the same timestamp is skipped (success, nothing
sent, no state change, no send attempt) rather than retried. -/
theorem sync_marks_before_send (sid wid : String) (config : Configuration)
    (t0 : Timestamp) (observation : WeatherObservation)
    (sendOp : ℕ → Except String Bool) (st : SyncState)
    (h : dictGet st.last_sent sid ≠ some observation.timestamp) :
    dictGet (sync_station sid wid config t0
        (.ok observation) sendOp st).state.last_sent sid =
      some observation.timestamp
    ∧ (∀ other, other ≠ sid →
        dictGet (sync_station sid wid config t0
            (.ok observation) sendOp st).state.last_sent other =
          dictGet st.last_sent other)
    ∧ ∀ (t1 : Timestamp) (sendOp₂ : ℕ → Except String Bool),
        sync_station sid wid config t1 (.ok observation) sendOp₂
            (sync_station sid wid config t0 (.ok observation) sendOp st).state =
          ⟨⟨sid, true, t1, none, 0⟩,
            (sync_station sid wid config t0 (.ok observation) sendOp st).state,
            0⟩ := by
  have hls := sync_station_mark sid wid config t0 observation sendOp st h
  refine ⟨by rw [hls]; exact dictGet_set_same _ _ _, ?_, ?_⟩
  · intro other hother
    rw [hls]
    exact dictGet_set_other _ _ _ _ hother
  · intro t1 sendOp₂
    apply sync_station_skip
    rw [hls]
    exact dictGet_set_same _ _ _

/-- Witness for C6: syncing a fresh station writes its timestamp into
the dedup cache. -/
theorem sync_marks_before_send_witness :
    dictGet (sync_station "S" "W" cfgA 0 (.ok obsSkip) (fun _ => .ok true)
        ⟨[], []⟩).state.last_sent "S" = some obsSkip.timestamp :=
  (sync_marks_before_send "S" "W" cfgA 0 obsSkip (fun _ => .ok true)
    ⟨[], []⟩ (by simp [dictGet])).1

/-- C8: the per-station sync never raises past its boundary: a fetch
failure, a transform failure, or an exhausted send each yield a
`SyncResult` with `success = false`, `observations_sent = 0` and the
failure message captured; a full success yields `success = true` with
`observations_sent = 1`; and every failed result carries a message. -/
theorem sync_failure_boundary (sid wid : String) (config : Configuration)
    (t0 : Timestamp) (fetched : Except String WeatherObservation)
    (sendOp : ℕ → Except String Bool) (st : SyncState) :
    (∀ e, fetched = .error e →
      (sync_station sid wid config t0 fetched sendOp st).result =
        ⟨sid, false, t0, some e, 0⟩)
    ∧ (∀ observation e pc, fetched = .ok observation →
        dictGet st.last_sent sid ≠ some observation.timestamp →
        transform_to_windy_format st.precip observation 0 = (.error e, pc) →
        (sync_station sid wid config t0 fetched sendOp st).result =
          ⟨sid, false, t0, some e, 0⟩)
    ∧ (∀ observation w pc m, fetched = .ok observation →
        dictGet st.last_sent sid ≠ some observation.timestamp →
        transform_to_windy_format st.precip observation 0 = (.ok w, pc) →
        (retry_with_backoff sendOp config.retry_attempts
          config.retry_delay_seconds (sendOpName sid wid)).result = .error m →
        (sync_station sid wid config t0 fetched sendOp st).result =
          ⟨sid, false, t0, some m.message, 0⟩)
    ∧ (∀ observation w pc b, fetched = .ok observation →
        dictGet st.last_sent sid ≠ some observation.timestamp →
        transform_to_windy_format st.precip observation 0 = (.ok w, pc) →
        (retry_with_backoff sendOp config.retry_attempts
          config.retry_delay_seconds (sendOpName sid wid)).result = .ok b →
        (sync_station sid wid config t0 fetched sendOp st).result =
          ⟨sid, true, t0, none, 1⟩)
    ∧ ((sync_station sid wid config t0 fetched sendOp st).result.success
          = false →
        (sync_station sid wid config t0
          fetched sendOp st).result.observations_sent = 0 ∧
        (sync_station sid wid config t0
          fetched sendOp st).result.error_message ≠ none) := by
  refine ⟨?_, ?_, ?_, ?_, ?_⟩
  · intro e he
    subst he
    rw [sync_station_fetch_error]
  · intro observation e pc he h htr
    subst he
    rw [sync_station_transform_error sid wid config t0 observation sendOp st
      e pc h htr]
  · intro observation w pc m he h htr hres
    subst he
    rw [sync_station_send_error sid wid config t0 observation sendOp st
      w pc m h htr hres]
  · intro observation w pc b he h htr hres
    subst he
    rw [sync_station_send_ok sid wid config t0 observation sendOp st
      w pc b h htr hres]
  · rcases fetched with e | observation
    · rw [sync_station_fetch_error]
      intro _
      exact ⟨rfl, by simp⟩
    · by_cases h : dictGet st.last_sent sid = some observation.timestamp
      · rw [sync_station_skip sid wid config t0 observation sendOp st h]
        intro hs
        simp at hs
      · rcases htr : transform_to_windy_format st.precip observation 0
          with ⟨tr, pc⟩
        rcases tr with e | w
        · rw [sync_station_transform_error sid wid config t0 observation
            sendOp st e pc h htr]
          intro _
          exact ⟨rfl, by simp⟩
        · rcases hres : (retry_with_backoff sendOp config.retry_attempts
              config.retry_delay_seconds (sendOpName sid wid)).result
            with m | b
          · rw [sync_station_send_error sid wid config t0 observation sendOp
              st w pc m h htr hres]
            intro _
            exact ⟨rfl, by simp⟩
          · rw [sync_station_send_ok sid wid config t0 observation sendOp st
              w pc b h htr hres]
            intro hs
            simp at hs

/-- Witness for C8: a failed fetch is converted into a failed result
carrying the message. -/
theorem sync_failure_boundary_witness :
    (sync_station "S" "W" cfgA 0 (.error "connection down")
        (fun _ => .ok true) ⟨[], []⟩).result =
      ⟨"S", false, 0, some "connection down", 0⟩ :=
  (sync_failure_boundary "S" "W" cfgA 0 (.error "connection down")
    (fun _ => .ok true) ⟨[], []⟩).1 "connection down" rfl

/-- Helper: every branch of the station sync reports the station id it
was invoked with. -/
theorem sync_station_result_id (sid wid : String) (config : Configuration)
    (t0 : Timestamp) (fetched : Except String WeatherObservation)
    (sendOp : ℕ → Except String Bool) (st : SyncState) :
    (sync_station sid wid config t0 fetched sendOp st).result.station_id
      = sid := by
  rcases fetched with e | observation
  · rw [sync_station_fetch_error]
  · by_cases h : dictGet st.last_sent sid = some observation.timestamp
    · rw [sync_station_skip sid wid config t0 observation sendOp st h]
    · rcases htr : transform_to_windy_format st.precip observation 0
        with ⟨tr, pc⟩
      rcases tr with e | w
      · rw [sync_station_transform_error sid wid config t0 observation sendOp
          st e pc h htr]
      · rcases hres : (retry_with_backoff sendOp config.retry_attempts
            config.retry_delay_seconds (sendOpName sid wid)).result with m | b
        · rw [sync_station_send_error sid wid config t0 observation sendOp st
            w pc m h htr hres]
        · rw [sync_station_send_ok sid wid config t0 observation sendOp st
            w pc b h htr hres]

/-- Helper: the cycle produces the station ids of the input pairs, in
order. -/
theorem runStationPairs_map_id (config : Configuration)
    (env : String → StationEnv) :
    ∀ (pairs : List (String × String)) (st : SyncState),
      (runStationPairs config env pairs st).1.map SyncResult.station_id =
        pairs.map Prod.fst := by
  intro pairs
  induction pairs with
  | nil => intro st; rfl
  | cons p rest ih =>
    intro st
    rcases p with ⟨wu, wi⟩
    simp only [runStationPairs, List.map_cons]
    rw [sync_station_result_id, ih]

/-- Observation fetched for station B in the two-station cycle run: a
perfectly valid reading carrying a temperature. -/
def obsB9 : WeatherObservation :=
  ⟨"B", 7, some 20, none, none, none, none, none, none, none, none, none,
   none, none, none, none, none, none⟩

/-- Two-station environment: station A fails to fetch, station B fetches
`obsB9` and its send operation would succeed at once if it were ever
reached. -/
def envAB : String → StationEnv := fun sid =>
  if sid = "A" then ⟨0, .error "fetch failed", fun _ => .ok true⟩
  else ⟨1, .ok obsB9, fun _ => .ok true⟩

/-- C9 (code bug): the cycle does return one result per configured pair
in input order (second conjunct), but the claimed isolation outcome is
unreachable: running the two-station cycle where station A fails to
fetch and station B fetches a valid observation, station B does not
succeed with one observation sent — its transform dies with the
`AttributeError`, so B's result is a failure with nothing sent. -/
theorem sync_cycle_attribute_error :
    ((execute_sync_cycle cfgA envAB ⟨[], []⟩).1 =
      [⟨"A", false, 0, some "fetch failed", 0⟩,
       ⟨"B", false, 1, some attributeErrorMsg, 0⟩])
    ∧ ∀ (config : Configuration) (env : String → StationEnv) (st : SyncState),
        (execute_sync_cycle config env st).1.map SyncResult.station_id =
          (config.wu_station_ids.zip config.windy_station_ids).map Prod.fst := by
  constructor
  · unfold execute_sync_cycle
    show (runStationPairs cfgA envAB [("A", "WA"), ("B", "WB")] ⟨[], []⟩).1 = _
    simp only [runStationPairs]
    rw [show (envAB "A").fetched = .error "fetch failed" from rfl,
      sync_station_fetch_error "A" "WA" cfgA (envAB "A").start_time
        "fetch failed" (envAB "A").sendOp ⟨[], []⟩]
    dsimp only
    rw [show (envAB "B").fetched = .ok obsB9 from rfl,
      sync_station_transform_error "B" "WB" cfgA (envAB "B").start_time obsB9
        (envAB "B").sendOp ⟨[], []⟩ attributeErrorMsg [] (by simp [dictGet])
        rfl]
    rfl
  · intro config env st
    exact runStationPairs_map_id config env _ st

end WSDB
